import Mathlib

/-!
Verification of the interview-prep repository's core logic: the backend
agent's history trimming and SSE event translation (`src/agent/agent.py`),
the tool server's delegation polling, filename derivation and prep listing
(`src/tools/mcp.py`), and the research subagent's search-result formatting
(`src/research_subagent/main.py`).

Python strings are embedded as lists of characters (`PyStr`), stateful
loops as structural recursions, and code paths that raise a Python
exception as `Option.none`.
-/

namespace InterviewPrep

/-- Embedding of a Python `str` as its sequence of characters. -/
abbrev PyStr := List Char

/-! ## Python string primitives used by the sources -/

/-- `s.startswith(pre)` for Python strings. -/
def pyStartswith : PyStr → PyStr → Bool
  | _, [] => true
  | [], _ :: _ => false
  | c :: cs, p :: ps => c == p && pyStartswith cs ps

/-- `pat in s` for Python strings: `pat` occurs as a contiguous substring. -/
def pyIn (pat : PyStr) : PyStr → Bool
  | [] => pat.isEmpty
  | c :: rest => pyStartswith (c :: rest) pat || pyIn pat rest

/-- Python `\s` on the ASCII range (the characters the sources manipulate). -/
def isPySpace (c : Char) : Bool :=
  c == ' ' || c == '\t' || c == '\n' || c == '\r' || c == '\x0b' || c == '\x0c'

/-- Python `\w` on the ASCII range: alphanumeric or underscore. -/
def isPyWord (c : Char) : Bool :=
  c.isAlphanum || c == '_'

/-- Python `s.strip()`: drop whitespace from both ends. -/
def pyStrip (s : PyStr) : PyStr :=
  ((s.dropWhile isPySpace).reverse.dropWhile isPySpace).reverse

/-- Python `s.lower()` (ASCII). -/
def pyLower (s : PyStr) : PyStr := s.map Char.toLower

/-- Python `s.removeprefix(p)`. -/
def pyRemovePre (pfx s : PyStr) : PyStr :=
  if pyStartswith s pfx then s.drop pfx.length else s

/-- Python `s.endswith(p)`. -/
def pyEndswith (s suf : PyStr) : Bool := pyStartswith s.reverse suf.reverse

/-- Python `s.removesuffix(p)`. -/
def pyRemoveSuf (suf s : PyStr) : PyStr :=
  if pyEndswith s suf then s.take (s.length - suf.length) else s

/-! ## Specification-side string predicates

Used to state claims about `startswith` / `in` in the spec's own terms
(prefix / substring decompositions), to be related to the executable
scanners above by the lemmas `pyStartswith_iff` and `pyIn_iff`. -/

/-- The spec's "starts with": some tail extends `p` to `s`. -/
def specStartsWith (p s : PyStr) : Prop := ∃ t, s = p ++ t

/-- The spec's "contains": `pat` occurs inside `s`. -/
def specContains (pat s : PyStr) : Prop := ∃ u v, s = u ++ pat ++ v

/-! ## JSON serialization (`json.dumps` on string-valued objects)

`agent.py` builds its SSE payloads with `json.dumps` over dicts whose
values are strings.  `json.dumps` with default options escapes `"` `\`,
the short control escapes, other control characters as `\u00XX`, and all
non-ASCII characters as `\uXXXX` (surrogate pairs above the BMP). -/

/-- Lower-case hexadecimal digit, as `json.dumps` emits. -/
def hexDigit (n : Nat) : Char :=
  if n < 10 then Char.ofNat ('0'.toNat + n) else Char.ofNat ('a'.toNat + (n - 10))

/-- `\uXXXX` escape for a 16-bit code unit. -/
def uEscape (n : Nat) : PyStr :=
  ['\\', 'u', hexDigit (n / 4096 % 16), hexDigit (n / 256 % 16),
   hexDigit (n / 16 % 16), hexDigit (n % 16)]

/-- Escape of one character inside a `json.dumps` string literal. -/
def jsonEscapeChar (c : Char) : PyStr :=
  if c == '"' then ['\\', '"']
  else if c == '\\' then ['\\', '\\']
  else if c == '\n' then ['\\', 'n']
  else if c == '\r' then ['\\', 'r']
  else if c == '\t' then ['\\', 't']
  else if c == '\x08' then ['\\', 'b']
  else if c == '\x0c' then ['\\', 'f']
  else if c.toNat < 0x20 then uEscape c.toNat
  else if c.toNat < 0x7f then [c]
  else if c.toNat < 0x10000 then uEscape c.toNat
  else uEscape (0xd800 + (c.toNat - 0x10000) / 0x400)
       ++ uEscape (0xdc00 + (c.toNat - 0x10000) % 0x400)

/-- `json.dumps` of a Python string (the quoted literal). -/
def jsonStr (s : PyStr) : PyStr :=
  '"' :: (s.flatMap jsonEscapeChar) ++ ['"']

/-- `json.dumps({k: v})` for one string-valued key. -/
def jsonObj1 (k v : PyStr) : PyStr :=
  '\x7b' :: jsonStr k ++ (": ").toList ++ jsonStr v ++ [ '\x7d' ]

/-- `json.dumps({k1: v1, k2: v2})` for two string-valued keys. -/
def jsonObj2 (k1 v1 k2 v2 : PyStr) : PyStr :=
  '\x7b' :: jsonStr k1 ++ (": ").toList ++ jsonStr v1 ++ (", ").toList
    ++ jsonStr k2 ++ (": ").toList ++ jsonStr v2 ++ [ '\x7d' ]

/-! ## Data model of `pydantic_ai` messages (`src/agent/agent.py`)

`process_history` inspects only the message class (`ModelRequest` vs
`ModelResponse`) and, among request parts, which are `ToolReturnPart`s;
the embedding keeps one representative constructor for each shape the
trimming logic distinguishes. -/

/-- A part of a `ModelRequest`: a user/system prompt or a `ToolReturnPart`
referencing a prior tool call. -/
inductive ReqPart
  | userPrompt (content : PyStr)
  | toolReturn (toolCallId : PyStr)
  deriving DecidableEq, Repr

/-- A part of a `ModelResponse`: model text or a tool call. -/
inductive RespPart
  | text (content : PyStr)
  | toolCall (toolCallId : PyStr)
  deriving DecidableEq, Repr

/-- `ModelMessage = ModelRequest | ModelResponse`. -/
inductive Msg
  | request (parts : List ReqPart)
  | response (parts : List RespPart)
  deriving DecidableEq, Repr

/-- `isinstance(part, ToolReturnPart)`. -/
def isToolReturnPart : ReqPart → Bool
  | .toolReturn _ => true
  | .userPrompt _ => false

/-- `MAX_HISTORY_MESSAGES = 20` in `agent.py`. -/
def MAX_HISTORY_MESSAGES : Nat := 20

/-- `while trimmed and isinstance(trimmed[0], ModelResponse): trimmed = trimmed[1:]`. -/
def dropLeadingResponses : List Msg → List Msg
  | [] => []
  | .response _ :: rest => dropLeadingResponses rest
  | .request parts :: rest => .request parts :: rest

/-- `process_history` from `src/agent/agent.py`.

Returns `none` where the Python raises: after dropping leading
`ModelResponse`s the code reads `first = trimmed[0]` without checking that
`trimmed` is non-empty, so an all-`ModelResponse` window raises
`IndexError`. -/
def process_history (messages : List Msg) : Option (List Msg) :=
  if messages.length ≤ MAX_HISTORY_MESSAGES then
    some messages
  else
    -- trimmed = messages[-MAX_HISTORY_MESSAGES:]
    let trimmed := messages.drop (messages.length - MAX_HISTORY_MESSAGES)
    -- ensure the first message is a ModelRequest
    let trimmed := dropLeadingResponses trimmed
    -- first = trimmed[0]  (IndexError when trimmed == [])
    match trimmed with
    | [] => none
    | first :: rest =>
      match first with
      | .request parts =>
        if parts.any isToolReturnPart then
          -- trimmed = trimmed[1:]; then drop leading ModelResponses again
          some (dropLeadingResponses rest)
        else
          some (first :: rest)
      | .response ps => some (.response ps :: rest)

/-! ## Concrete transcripts exercising `process_history` -/

/-- A 21-message transcript whose last-20 window is all `ModelResponse`s:
one user request followed by twenty model responses. -/
def allResponsesWindow : List Msg :=
  Msg.request [.userPrompt ("hi").toList]
    :: List.replicate 20 (Msg.response [.text ("r").toList])

/-- Filler exchange (model text, then a plain user request). -/
def padBlock : List Msg :=
  [Msg.response [.text ("t").toList], Msg.request [.userPrompt ("u").toList]]

/-- A well-formed 22-message transcript (every tool-return is immediately
preceded by the response carrying its matching tool call) whose last-20
window begins `Request(tool-return c1), Response(tool-call c2),
Request(tool-return c2), …`. -/
def doubleOrphanInput : List Msg :=
  [Msg.request [.userPrompt ("hello").toList],
   Msg.response [.toolCall ("c1").toList],
   Msg.request [.toolReturn ("c1").toList],
   Msg.response [.toolCall ("c2").toList],
   Msg.request [.toolReturn ("c2").toList]]
  ++ (List.replicate 8 padBlock).flatten
  ++ [Msg.response [.text ("t").toList]]

/-- What `process_history` returns on `doubleOrphanInput`: the window now
opens with the request whose tool-return's matching call was dropped. -/
def doubleOrphanTrimmed : List Msg :=
  Msg.request [.toolReturn ("c2").toList]
    :: (List.replicate 8 padBlock).flatten
    ++ [Msg.response [.text ("t").toList]]

/-- The trimmed history opens with a `ModelRequest` containing a
`ToolReturnPart`. -/
def headHasToolReturn : Option (List Msg) → Bool
  | some (Msg.request ps :: _) => ps.any isToolReturnPart
  | _ => false

/-! ## Claims C1, C2, C9 -/

/-- Claim C1: the claim states that `process_history` never fails and at
worst returns an empty transcript.  The code contradicts this: on a
21-message history whose last-20 window consists only of
`ModelResponse`s, dropping leading responses empties the window and the
unguarded `first = trimmed[0]` raises `IndexError` (embedded as `none`)
instead of returning `[]`. -/
theorem claim_C1_process_history_raises_on_all_response_window :
    process_history allResponsesWindow = none
      ∧ dropLeadingResponses
          (allResponsesWindow.drop
            (allResponsesWindow.length - MAX_HISTORY_MESSAGES)) = [] := by
  constructor
  · decide
  · decide

/-- Claim C2: the claim states that the trimmed transcript never has a
`Request` containing a tool-result part at index 0.  The code checks the
leading request only once, so on `doubleOrphanInput` (a well-formed
22-message transcript) it returns a window whose first message is a
`Request` whose tool-return's matching tool-call response was dropped. -/
theorem claim_C2_trimmed_head_contains_orphan_tool_return :
    process_history doubleOrphanInput = some doubleOrphanTrimmed
      ∧ headHasToolReturn (process_history doubleOrphanInput) = true := by
  constructor
  · decide
  · decide

/-- Dropping leading responses returns a suffix of the input list. -/
lemma dropLeadingResponses_suffix (l : List Msg) : dropLeadingResponses l <:+ l := by
  induction l with
  | nil => exact List.suffix_refl _
  | cons m rest ih =>
    cases m with
    | response ps =>
      have h1 : dropLeadingResponses (Msg.response ps :: rest)
          = dropLeadingResponses rest := rfl
      rw [h1]
      exact ih.trans (List.suffix_cons _ _)
    | request ps => exact List.suffix_refl _

/-- Claim C9: whenever `process_history` succeeds, its result is a
contiguous suffix of the input transcript — no message is modified,
reordered, duplicated or inserted, and all removals are from the front. -/
theorem claim_C9_process_history_returns_suffix (msgs res : List Msg)
    (h : process_history msgs = some res) : res <:+ msgs := by
  unfold process_history at h
  split at h
  · exact (Option.some.inj h) ▸ List.suffix_refl _
  · simp only [] at h
    split at h
    · cases h
    · rename_i first rest heq
      have hsuf : first :: rest <:+ msgs := by
        rw [← heq]
        exact (dropLeadingResponses_suffix _).trans (List.drop_suffix _ _)
      split at h
      · split at h
        · cases h
          exact ((dropLeadingResponses_suffix rest).trans
            ((List.suffix_cons _ _).trans (by exact hsuf)))
        · cases h
          exact hsuf
      · cases h
        exact hsuf

/-- Witness for C9 at a concrete transcript. -/
theorem claim_C9_witness :
    process_history doubleOrphanInput = some doubleOrphanTrimmed
      ∧ doubleOrphanTrimmed <:+ doubleOrphanInput :=
  ⟨by decide,
   claim_C9_process_history_returns_suffix doubleOrphanInput doubleOrphanTrimmed
     (by decide)⟩

/-! ## Correctness of the Python string scanners -/

/-- `s.startswith(p)` is the spec's prefix decomposition. -/
lemma pyStartswith_iff (s p : PyStr) : pyStartswith s p = true ↔ specStartsWith p s := by
  induction p generalizing s with
  | nil =>
    cases s <;> simp [pyStartswith, specStartsWith]
  | cons q ps ih =>
    cases s with
    | nil => simp [pyStartswith, specStartsWith]
    | cons c cs =>
      simp only [pyStartswith, Bool.and_eq_true, beq_iff_eq, ih, specStartsWith]
      constructor
      · rintro ⟨rfl, t, rfl⟩
        exact ⟨t, rfl⟩
      · rintro ⟨t, heq⟩
        injection heq with h1 h2
        exact ⟨h1, t, h2⟩

/-- `pat in s` is the spec's substring decomposition. -/
lemma pyIn_iff (pat s : PyStr) : pyIn pat s = true ↔ specContains pat s := by
  induction s with
  | nil =>
    simp only [pyIn, specContains, List.isEmpty_iff]
    constructor
    · rintro rfl
      exact ⟨[], [], rfl⟩
    · rintro ⟨u, v, heq⟩
      cases u <;> cases pat <;> simp_all
  | cons c cs ih =>
    simp only [pyIn, Bool.or_eq_true, ih, pyStartswith_iff, specContains]
    constructor
    · rintro (⟨t, ht⟩ | ⟨u, v, hv⟩)
      · exact ⟨[], t, by simpa using ht⟩
      · exact ⟨c :: u, v, by simp [hv]⟩
    · rintro ⟨u, v, heq⟩
      cases u with
      | nil =>
        left
        exact ⟨v, by simpa using heq⟩
      | cons a us =>
        right
        injection heq with h1 h2
        exact ⟨us, v, h2⟩

/-! ## Stream event translation (`_format_sse_event`, `src/agent/agent.py`)

A `FunctionToolCallEvent`'s `part.args` is either already a string or is
serialized with `json.dumps`; the embedding carries the serialized image
in the second case, mirroring the `isinstance(part.args, str)` branch.
`list_preps` tool results are Python objects serialized through
`json.dumps`; their content is carried here as the string it serializes
to, which is exact for the claims under verification (none constrain the
`prep_list` payload's inner structure). -/

/-- `part.args` of a tool-call event: a `str`, or other data with its
`json.dumps` serialization. -/
inductive ToolArgs
  | strArgs (s : PyStr)
  | jsonArgs (serialized : PyStr)
  deriving DecidableEq, Repr

/-- The internal stream events `_format_sse_event` distinguishes:
`PartStartEvent` (text part or not), `PartDeltaEvent` (text delta or
not), `FunctionToolCallEvent`, `FunctionToolResultEvent`. -/
inductive AgentStreamEvent
  | partStartText (content : PyStr)
  | partStartOther
  | partDeltaText (contentDelta : PyStr)
  | partDeltaOther
  | functionToolCall (toolName : PyStr) (args : ToolArgs)
  | functionToolResult (toolName : PyStr) (content : PyStr)
  deriving DecidableEq, Repr

/-- `_format_sse_event` from `src/agent/agent.py`: converts a stream event
to an SSE string, or `None` for events carrying no external signal
(including a `generate_prep` result that is not an S3 URL). -/
def _format_sse_event : AgentStreamEvent → Option PyStr
  | .partStartText content =>
      some (("event: token\ndata: ").toList
        ++ jsonObj1 (("text").toList) content ++ ("\n\n").toList)
  | .partDeltaText d =>
      some (("event: token\ndata: ").toList
        ++ jsonObj1 (("text").toList) d ++ ("\n\n").toList)
  | .functionToolCall name args =>
      some (("event: tool_call\ndata: ").toList
        ++ jsonObj2 (("name").toList) name (("args").toList)
             (match args with | .strArgs s => s | .jsonArgs ser => ser)
        ++ ("\n\n").toList)
  | .functionToolResult tool content =>
      if tool = ("generate_prep").toList then
        if pyStartswith content (("https://").toList)
            && pyIn ((".s3.").toList) content then
          some (("event: pdf_generated\ndata: ").toList
            ++ jsonObj1 (("url").toList) content ++ ("\n\n").toList)
        else none
      else if tool = ("list_preps").toList then
        some (("event: prep_list\ndata: ").toList
          ++ jsonObj1 (("preps").toList) content ++ ("\n\n").toList)
      else none
  | .partStartOther => none
  | .partDeltaOther => none

/-- Claim C7: translating a `generate_prep` tool result with content `x`
yields the `pdf_generated` wire event carrying `{url: x}` exactly when
`x` starts with `https://` and contains `.s3.`, and yields nothing
otherwise. -/
theorem claim_C7_pdf_generated_iff_s3_url (x : PyStr) :
    (_format_sse_event (.functionToolResult (("generate_prep").toList) x)
        = some (("event: pdf_generated\ndata: ").toList
            ++ jsonObj1 (("url").toList) x ++ ("\n\n").toList)
      ↔ specStartsWith (("https://").toList) x ∧ specContains ((".s3.").toList) x)
    ∧ (_format_sse_event (.functionToolResult (("generate_prep").toList) x) = none
      ↔ ¬(specStartsWith (("https://").toList) x
            ∧ specContains ((".s3.").toList) x)) := by
  have hchar : (pyStartswith x (("https://").toList)
        && pyIn ((".s3.").toList) x) = true
      ↔ specStartsWith (("https://").toList) x
        ∧ specContains ((".s3.").toList) x := by
    rw [Bool.and_eq_true, pyStartswith_iff, pyIn_iff]
  have hred : _format_sse_event (.functionToolResult (("generate_prep").toList) x)
      = if pyStartswith x (("https://").toList) && pyIn ((".s3.").toList) x
        then some (("event: pdf_generated\ndata: ").toList
            ++ jsonObj1 (("url").toList) x ++ ("\n\n").toList)
        else none := rfl
  by_cases hc : (pyStartswith x (("https://").toList)
      && pyIn ((".s3.").toList) x) = true
  · have hab := hchar.mp hc
    rw [hred, if_pos hc]
    exact ⟨⟨fun _ => hab, fun _ => rfl⟩,
           ⟨fun hnone => Option.noConfusion hnone, fun hn => absurd hab hn⟩⟩
  · have hb : ¬(specStartsWith (("https://").toList) x
        ∧ specContains ((".s3.").toList) x) := fun h => hc (hchar.mpr h)
    rw [hred, if_neg hc]
    exact ⟨⟨fun hnone => Option.noConfusion hnone, fun hab => absurd hab hb⟩,
           ⟨fun _ => hb, fun _ => rfl⟩⟩

/-- Witness for C7 at a concrete S3 URL. -/
theorem claim_C7_witness :
    _format_sse_event (.functionToolResult (("generate_prep").toList)
        (("https://bucket.s3.amazonaws.com/prep.pdf").toList))
      = some (("event: pdf_generated\ndata: ").toList
          ++ jsonObj1 (("url").toList)
              (("https://bucket.s3.amazonaws.com/prep.pdf").toList)
          ++ ("\n\n").toList) :=
  (claim_C7_pdf_generated_iff_s3_url
      (("https://bucket.s3.amazonaws.com/prep.pdf").toList)).1.mpr
    ⟨⟨(("bucket.s3.amazonaws.com/prep.pdf").toList), by decide⟩,
     ⟨(("https://bucket").toList), (("amazonaws.com/prep.pdf").toList), by decide⟩⟩

/-! ## The SSE stream boundary (`sse_generator`, `src/agent/agent.py`)

One agent run is embedded as the sequence of stream events it produces,
together with an optional exception (its stringification) raised while
producing them.  `sse_generator`'s `try`/`except` forwards each
translated event and, on an exception, yields the single terminal
`error` event and returns, so the stream closes normally. -/

/-- The terminal error event built in `sse_generator`'s `except` branch. -/
def sse_error_event (msg : PyStr) : PyStr :=
  ("event: error\ndata: ").toList
    ++ jsonObj1 (("message").toList) msg ++ ("\n\n").toList

/-- `sse_generator` from `src/agent/agent.py` over an embedded run
trace: the events the run produced before returning (`failure = none`)
or raising (`failure = some message`). -/
def sse_generator (events : List AgentStreamEvent) (failure : Option PyStr) :
    List PyStr :=
  events.filterMap _format_sse_event
    ++ (match failure with
        | some e => [sse_error_event e]
        | none => [])

/-- An SSE string of the `error` kind. -/
def isErrorEvent (s : PyStr) : Bool := pyStartswith s (("event: error").toList)

/-- `_format_sse_event` never produces an `error`-kind event. -/
lemma format_sse_event_not_error (e : AgentStreamEvent) (s : PyStr)
    (h : _format_sse_event e = some s) : isErrorEvent s = false := by
  cases e with
  | partStartText c => injection h with h; subst h; rfl
  | partDeltaText c => injection h with h; subst h; rfl
  | functionToolCall n a => injection h with h; subst h; rfl
  | partStartOther => exact Option.noConfusion h
  | partDeltaOther => exact Option.noConfusion h
  | functionToolResult tool content =>
    simp only [_format_sse_event] at h
    split at h
    · split at h
      · injection h with h; subst h; rfl
      · exact Option.noConfusion h
    · split at h
      · injection h with h; subst h; rfl
      · exact Option.noConfusion h

/-- Claim C8: when the run raises with stringified failure `msg`, the
stream contains exactly one `error`-kind wire event — the one carrying
`msg` — and it is the final element of the (normally closed) stream. -/
theorem claim_C8_single_terminal_error_event
    (events : List AgentStreamEvent) (msg : PyStr) :
    (sse_generator events (some msg)).filter isErrorEvent
        = [sse_error_event msg]
      ∧ (sse_generator events (some msg)).getLast?
        = some (sse_error_event msg) := by
  have hmap : ∀ s ∈ events.filterMap _format_sse_event, isErrorEvent s = false := by
    intro s hs
    rcases List.mem_filterMap.mp hs with ⟨e, _, he⟩
    exact format_sse_event_not_error e s he
  have hgen : sse_generator events (some msg)
      = events.filterMap _format_sse_event ++ [sse_error_event msg] := rfl
  constructor
  · rw [hgen, List.filter_append]
    have h1 : (events.filterMap _format_sse_event).filter isErrorEvent = [] :=
      List.filter_eq_nil_iff.mpr (fun a ha => by simp [hmap a ha])
    rw [h1]
    have h2 : isErrorEvent (sse_error_event msg) = true := rfl
    simp [List.filter, h2]
  · rw [hgen]
    exact List.getLast?_concat _

/-- Witness for C8 on a run that emits one token then raises. -/
theorem claim_C8_witness :
    (sse_generator [.partStartText (("Hi").toList)]
        (some (("boom").toList))).filter isErrorEvent
      = [sse_error_event (("boom").toList)]
    ∧ (sse_generator [.partStartText (("Hi").toList)]
        (some (("boom").toList))).getLast?
      = some (sse_error_event (("boom").toList)) :=
  claim_C8_single_terminal_error_event [.partStartText (("Hi").toList)]
    (("boom").toList)

/-! ## Delegation polling (`generate_prep`, `src/tools/mcp.py`)

`generate_prep`'s `for _ in range(120)` loop polls the A2A task once per
iteration.  The collaborator is embedded as the function `getTask`
mapping the 0-based poll index to the state string observed at that
poll; the loop is a fuel recursion with fuel `120 - i`.  `break` leads to
artifact extraction (`completed`), the terminal-failure `return` and the
`for`/`else` timeout `return` produce the two message strings. -/

/-- How the polling loop ended, with the number of polls issued. -/
inductive PollResult
  | completed (polls : Nat)
  | failed (state : PyStr) (polls : Nat)
  | timedOut (polls : Nat)
  deriving DecidableEq, Repr

/-- The states of the `case "failed" | "canceled" | "rejected"` arm. -/
def terminalFailStates : List PyStr :=
  [("failed").toList, ("canceled").toList, ("rejected").toList]

/-- The loop body from poll index `i` with `fuel` iterations left:
`state = task["status"]["state"]` then the `match state` arms; any other
state sleeps and continues. -/
def poll_from (getTask : Nat → PyStr) : Nat → Nat → PollResult
  | i, 0 => .timedOut i
  | i, fuel + 1 =>
    if getTask i = ("completed").toList then .completed (i + 1)
    else if getTask i ∈ terminalFailStates then .failed (getTask i) (i + 1)
    else poll_from getTask (i + 1) fuel

/-- The whole `for _ in range(120)` polling loop of `generate_prep`. -/
def generate_prep_poll (getTask : Nat → PyStr) : PollResult :=
  poll_from getTask 0 120

/-- Number of `get_task` calls the loop issued. -/
def pollsUsed : PollResult → Nat
  | .completed k => k
  | .failed _ k => k
  | .timedOut k => k

/-- The string `generate_prep` returns from inside the loop (`none` when
the loop broke on `completed` and the function proceeds to artifact
extraction). -/
def poll_outcome_message : PollResult → Option PyStr
  | .failed s _ => some (("Research subagent failed with state: ").toList ++ s)
  | .timedOut _ => some (("Research subagent timed out.").toList)
  | .completed _ => none

/-- If polls `i, …, i+m-1` see neither `completed` nor a terminal failure
and poll `i+m` sees a terminal failure, the loop stops there. -/
lemma poll_from_fail (getTask : Nat → PyStr) :
    ∀ (m i fuel : Nat), m < fuel →
      (∀ j, j < m → getTask (i + j) ≠ ("completed").toList
        ∧ getTask (i + j) ∉ terminalFailStates) →
      getTask (i + m) ∈ terminalFailStates →
      poll_from getTask i fuel = .failed (getTask (i + m)) (i + m + 1) := by
  intro m
  induction m with
  | zero =>
    intro i fuel hf hb ht
    have ht' : getTask i ∈ terminalFailStates := by simpa using ht
    have hnc : ¬ getTask i = ("completed").toList := by
      intro hc
      rw [hc] at ht'
      exact absurd ht' (by decide)
    cases fuel with
    | zero => omega
    | succ f =>
      show poll_from getTask i (f + 1) = _
      rw [poll_from, if_neg hnc, if_pos ht']
      simp
  | succ m ih =>
    intro i fuel hf hb ht
    cases fuel with
    | zero => omega
    | succ f =>
      have h0 := hb 0 (Nat.succ_pos m)
      have h0c : ¬ getTask i = ("completed").toList := by simpa using h0.1
      have h0t : ¬ getTask i ∈ terminalFailStates := by simpa using h0.2
      rw [poll_from, if_neg h0c, if_neg h0t]
      have harith : i + 1 + m = i + (m + 1) := by omega
      have := ih (i + 1) f (by omega)
        (fun j hj => by
          have h2 := hb (j + 1) (by omega)
          have : i + 1 + j = i + (j + 1) := by omega
          rw [this]
          exact h2)
        (by rw [harith]; exact ht)
      rw [this, harith]

/-- Claim C5: when the k-th poll (1 ≤ k ≤ 120) is the first to observe a
state in `failed|canceled|rejected`, the loop stops immediately with
that state's failure result after exactly k polls, and `generate_prep`
returns the message naming that state. -/
theorem claim_C5_terminal_failure_stops_at_poll_k (getTask : Nat → PyStr) (k : Nat)
    (hk1 : 1 ≤ k) (hk2 : k ≤ 120)
    (hterm : getTask (k - 1) ∈ terminalFailStates)
    (hbefore : ∀ j, j < k - 1 → getTask j ≠ ("completed").toList
      ∧ getTask j ∉ terminalFailStates) :
    generate_prep_poll getTask = .failed (getTask (k - 1)) k
      ∧ poll_outcome_message (generate_prep_poll getTask)
        = some (("Research subagent failed with state: ").toList
            ++ getTask (k - 1)) := by
  have h := poll_from_fail getTask (k - 1) 0 120 (by omega)
    (fun j hj => by simpa using hbefore j hj)
    (by simpa using hterm)
  have hk : 0 + (k - 1) + 1 = k := by omega
  have hk0 : (0 : Nat) + (k - 1) = k - 1 := by omega
  rw [hk, hk0] at h
  exact ⟨h,
    by rw [show generate_prep_poll getTask = poll_from getTask 0 120 from rfl, h]; rfl⟩

/-- A task that reports `running` on polls 1 and 2 and `failed` on poll 3. -/
def exFailTrace : Nat → PyStr :=
  fun j => if j < 2 then ("running").toList else ("failed").toList

/-- Witness for C5: the trace failing at poll 3 yields `Failed("failed")`
with exactly 3 polls. -/
theorem claim_C5_witness :
    generate_prep_poll exFailTrace = .failed (("failed").toList) 3
      ∧ poll_outcome_message (generate_prep_poll exFailTrace)
        = some (("Research subagent failed with state: failed").toList) := by
  have h := claim_C5_terminal_failure_stops_at_poll_k exFailTrace 3
    (by decide) (by decide) (by decide) (by decide)
  exact ⟨h.1, by rw [h.2]; rfl⟩

/-- The loop never issues more polls than it has fuel for. -/
lemma pollsUsed_poll_from (getTask : Nat → PyStr) :
    ∀ (fuel i : Nat), pollsUsed (poll_from getTask i fuel) ≤ i + fuel := by
  intro fuel
  induction fuel with
  | zero => intro i; simp [poll_from, pollsUsed]
  | succ f ih =>
    intro i
    rw [poll_from]
    by_cases h1 : getTask i = ("completed").toList
    · rw [if_pos h1]; simp [pollsUsed]
    · rw [if_neg h1]
      by_cases h2 : getTask i ∈ terminalFailStates
      · rw [if_pos h2]; simp [pollsUsed]
      · rw [if_neg h2]
        have := ih (i + 1)
        omega

/-- A loop seeing only `submitted`/`running` exhausts its fuel. -/
lemma poll_from_timeout (getTask : Nat → PyStr) :
    ∀ (fuel i : Nat),
      (∀ j, j < i + fuel → getTask j = ("submitted").toList
        ∨ getTask j = ("running").toList) →
      poll_from getTask i fuel = .timedOut (i + fuel) := by
  intro fuel
  induction fuel with
  | zero => intro i _; simp [poll_from]
  | succ f ih =>
    intro i hb
    have h0 := hb i (by omega)
    have h0c : ¬ getTask i = ("completed").toList := by
      rcases h0 with h | h <;> rw [h] <;> decide
    have h0t : ¬ getTask i ∈ terminalFailStates := by
      rcases h0 with h | h <;> rw [h] <;> decide
    rw [poll_from, if_neg h0c, if_neg h0t]
    have harith : i + 1 + f = i + (f + 1) := by omega
    have := ih (i + 1) (fun j hj => hb j (by omega))
    rw [this, harith]

/-- Claim C6: the polling loop issues at most 120 polls, and a task that
reports only non-terminal states (`submitted` or `running`) on all 120
polls makes `generate_prep` time out and return the timeout message. -/
theorem claim_C6_at_most_120_polls_then_timeout :
    (∀ getTask : Nat → PyStr, pollsUsed (generate_prep_poll getTask) ≤ 120)
      ∧ (∀ getTask : Nat → PyStr,
          (∀ j, j < 120 → getTask j = ("submitted").toList
            ∨ getTask j = ("running").toList) →
          generate_prep_poll getTask = .timedOut 120
            ∧ poll_outcome_message (generate_prep_poll getTask)
              = some (("Research subagent timed out.").toList)) := by
  constructor
  · intro getTask
    simpa using pollsUsed_poll_from getTask 120 0
  · intro getTask hb
    have h := poll_from_timeout getTask 120 0 (fun j hj => hb j (by simpa using hj))
    have h' : generate_prep_poll getTask = .timedOut 120 := by simpa using h
    refine ⟨h', ?_⟩
    rw [h']
    rfl

/-- Witness for C6: a task stuck at `running` for all 120 polls times out. -/
theorem claim_C6_witness :
    generate_prep_poll (fun _ => ("running").toList) = .timedOut 120 :=
  (claim_C6_at_most_120_polls_then_timeout.2 (fun _ => ("running").toList)
    (fun _ _ => Or.inr rfl)).1

/-! ## Filename derivation (`generate_prep`, `src/tools/mcp.py`)

`re.search(r"#.*?:\s*(.+?)$", markdown_content, re.MULTILINE)` is
embedded by its backtracking semantics, checked against CPython on edge
inputs: the search scans for the leftmost `#`, the lazy `.*?` scans for
the nearest `:` on that `#`'s line, greedy `\s*` (which may cross
newlines) backtracks from its longest extent, and `(.+?)$` captures from
there to the first end-of-line.  `\s`/`\w` are taken on the ASCII range
the repository's strings use. -/

/-- `(.+?)$` at the chosen start: capture up to the next newline. -/
def groupToEol (r : List Char) : List Char := r.takeWhile (fun c => c ≠ '\n')

/-- Backtracking of `\s*(.+?)$`: try the `\s*` extent `ell` first, then
shorter ones; a start position works when it holds a non-newline
character. -/
def tryA (r : List Char) : Nat → Option (List Char)
  | 0 =>
    match r with
    | [] => none
    | c :: _ => if c = '\n' then none else some (groupToEol r)
  | ell + 1 =>
    match r.drop (ell + 1) with
    | [] => tryA r ell
    | c :: _ => if c = '\n' then tryA r ell else some (groupToEol (r.drop (ell + 1)))

/-- Match `\s*(.+?)$` against `r` (the text after a candidate `:`). -/
def matchTail (r : List Char) : Option (List Char) :=
  tryA r (r.takeWhile isPySpace).length

/-- Lazy `.*?:` after a `#`: try each `:` on the same line, nearest
first, with the tail match; stop at the end of the line. -/
def tryColons : List Char → Option (List Char)
  | [] => none
  | c :: cs =>
    if c = '\n' then none
    else if c = ':' then
      match matchTail cs with
      | some g => some g
      | none => tryColons cs
    else tryColons cs

/-- `re.search(r"#.*?:\s*(.+?)$", s, re.MULTILINE)`: group 1 of the
leftmost match, scanning every `#` position. -/
def searchTitle : List Char → Option (List Char)
  | [] => none
  | c :: cs =>
    if c = '#' then
      match tryColons cs with
      | some g => some g
      | none => searchTitle cs
    else searchTitle cs

/-- `re.sub(r"\s+", "-", s)`: each whitespace run becomes one hyphen. -/
def collapseWs : Bool → List Char → List Char
  | _, [] => []
  | inRun, c :: cs =>
    if isPySpace c then
      if inRun then collapseWs true cs else '-' :: collapseWs true cs
    else c :: collapseWs false cs

/-- The two `re.sub` calls and `.lower()` applied to the captured title:
drop characters outside `\w`, `\s`, `-`; collapse whitespace runs to
hyphens; lowercase. -/
def slugify_title (t : List Char) : List Char :=
  pyLower (collapseWs false (t.filter (fun c => isPyWord c || isPySpace c || c = '-')))

/-- The `filename_base` computation of `generate_prep`: slug of the
captured title when the regex matches, else the timestamp fallback
`prep-{datetime.now():...}` (the clock is external, so the fallback
string is a parameter). -/
def filename_base (fallback markdown : PyStr) : PyStr :=
  match searchTitle markdown with
  | some g => slugify_title (pyStrip g)
  | none => fallback

/-- Accumulating newline splitter. -/
def splitLinesAux (acc : PyStr) : PyStr → List PyStr
  | [] => [acc.reverse]
  | c :: cs =>
    if c = '\n' then acc.reverse :: splitLinesAux [] cs
    else splitLinesAux (c :: acc) cs

/-- Split a string on newline characters. -/
def splitLines (s : PyStr) : List PyStr := splitLinesAux [] s

/-- Modelled from the spec: "a filename derived from the first markdown
heading found" — a markdown heading is a line starting with `#`.
Stated spec-side to compare with the source's colon-requiring regex. -/
def specHasMdHeading (md : PyStr) : Bool :=
  (splitLines md).any (fun l => pyStartswith l ['#'])

/-- The spec's worked example. -/
def mdHeadingExample : PyStr := ("# Prep: Acme Corp\nSome body text.\n").toList

/-- A markdown result whose first heading has no colon. -/
def mdNoColonHeading : PyStr := ("# Acme Corp\nSome body text.\n").toList

/-- A representative timestamp fallback name. -/
def tsFallback : PyStr := ("prep-20260101-000000").toList

/-- Counterexample to claim C4 as stated: `"# Acme Corp\n…"` contains a
markdown heading, yet `generate_prep` derives the timestamp fallback —
the source's regex `#.*?:` requires a colon after the `#`, so a heading
without a colon is not used. -/
theorem claim_C4_counterexample :
    specHasMdHeading mdNoColonHeading = true
      ∧ filename_base tsFallback mdNoColonHeading = tsFallback := by
  constructor
  · decide
  · decide

/-- Claim C4 as amended: the filename is derived from the first
`#…:`-pattern (text after the colon, slugified) — on the spec's example
`"# Prep: Acme Corp"` this is `"acme-corp"` — and the timestamp fallback
is used whenever no such colon pattern exists, including when a
colon-less markdown heading is present. -/
theorem claim_C4_filename_from_colon_heading (fallback : PyStr) :
    filename_base fallback mdHeadingExample = ("acme-corp").toList
      ∧ filename_base fallback
          (("# Prep: Acme  Corp & Co.\nrest\n").toList) = ("acme-corp-co").toList
      ∧ filename_base fallback mdNoColonHeading = fallback := by
  refine ⟨?_, ?_, ?_⟩ <;> rfl

/-- Witness for amended C4 at the timestamp fallback. -/
theorem claim_C4_witness :
    filename_base tsFallback mdHeadingExample = ("acme-corp").toList :=
  (claim_C4_filename_from_colon_heading tsFallback).1

/-! ## `list_preps` (`src/tools/mcp.py`)

The S3 `list_objects_v2` response is embedded as an optional list of
objects: S3 omits the `Contents` key entirely when no object matches the
prefix, and the code indexes `response["Contents"]` unconditionally, so
that case raises `KeyError` (embedded as `none`).  Presigned-URL
generation is an opaque per-key function. -/

/-- The tool's result record (`InterviewPrepMetadata` in `mcp.py`). -/
structure InterviewPrepMetadata where
  name : PyStr
  created_at : PyStr
  url : PyStr
  deriving DecidableEq, Repr

/-- One entry of `response["Contents"]`. -/
structure S3Object where
  key : PyStr
  lastModified : PyStr
  deriving DecidableEq, Repr

/-- `list_objects_v2` response: `contents = none` embeds a response with
no `Contents` key (the empty listing). -/
structure ListObjectsResponse where
  contents : Option (List S3Object)
  deriving DecidableEq, Repr

/-- `list_preps` from `src/tools/mcp.py`, from the listing response for
the user's `{email}/preps/` prefix; `none` embeds the `KeyError` raised
by `response["Contents"]`. -/
def list_preps (presign : PyStr → PyStr) (pfx : PyStr)
    (resp : ListObjectsResponse) : Option (List InterviewPrepMetadata) :=
  match resp.contents with
  | none => none
  | some objs => some (objs.map (fun obj =>
      { name := pyRemoveSuf ((".pdf").toList) (pyRemovePre pfx obj.key)
        created_at := obj.lastModified
        url := presign obj.key }))

/-- Claim C10: on a listing response with no `Contents` entry (the
zero-documents case) `list_preps` raises instead of returning an empty
list, and it returns normally exactly on the responses that do carry a
`Contents` list. -/
theorem claim_C10_list_preps_raises_on_empty_listing :
    (∀ (presign : PyStr → PyStr) (pfx : PyStr),
        list_preps presign pfx ⟨none⟩ = none)
      ∧ (∀ (presign : PyStr → PyStr) (pfx : PyStr) (resp : ListObjectsResponse)
          (objs : List S3Object), resp.contents = some objs →
          (list_preps presign pfx resp).isSome = true) := by
  constructor
  · intro presign pfx
    rfl
  · intro presign pfx resp objs h
    simp [list_preps, h]

/-- A one-object listing under the demo user's prefix. -/
def demoListing : ListObjectsResponse :=
  ⟨some [⟨("u_at_x/preps/acme-corp.pdf").toList, ("2026-01-01T00:00:00").toList⟩]⟩

/-- Witness for C10 at a concrete listing. -/
theorem claim_C10_witness :
    (list_preps (fun k => k) (("u_at_x/preps/").toList) demoListing).isSome = true
      ∧ list_preps (fun k => k) (("u_at_x/preps/").toList) ⟨none⟩ = none :=
  ⟨claim_C10_list_preps_raises_on_empty_listing.2 (fun k => k)
      (("u_at_x/preps/").toList) demoListing _ rfl,
   claim_C10_list_preps_raises_on_empty_listing.1 (fun k => k)
      (("u_at_x/preps/").toList)⟩

/-! ## `research_company` (`src/research_subagent/main.py`)

The `for result in response.get("results", [])` loop appends one
formatted block and then hits an unconditional `return` that is indented
inside the loop body, so at most one iteration runs; when there are no
results the loop never runs and the function falls off its end,
returning Python `None` (embedded as `none`) despite the `-> str`
annotation. -/

/-- One Tavily search result (the fields the formatter reads). -/
structure SearchResult where
  title : PyStr
  url : PyStr
  content : PyStr
  deriving DecidableEq, Repr

/-- The f-string block appended for one result. -/
def formatSearchResult (r : SearchResult) : PyStr :=
  ("**").toList ++ r.title ++ ("**\nURL: ").toList ++ r.url
    ++ ("\n").toList ++ r.content ++ ("\n").toList

/-- Python `sep.join(blocks)`. -/
def joinSep (sep : PyStr) : List PyStr → PyStr
  | [] => []
  | [x] => x
  | x :: y :: rest => x ++ sep ++ joinSep sep (y :: rest)

/-- `research_company` from `src/research_subagent/main.py`, applied to
`response["results"]`.  The loop body ends in
`return "\n---\n".join(results) if results else "No results found."`,
so it returns during the first iteration with `results` holding exactly
one block; with zero results the function returns `None`. -/
def research_company (response_results : List SearchResult) : Option PyStr :=
  match response_results with
  | [] => none
  | result :: _ =>
    let results : List PyStr := [] ++ [formatSearchResult result]
    some (if results.isEmpty then ("No results found.").toList
          else joinSep (("\n---\n").toList) results)

/-- Two search results for the divergence check. -/
def tavilyR1 : SearchResult :=
  ⟨("Acme careers").toList, ("https://acme.example/jobs").toList,
   ("Acme is hiring.").toList⟩

/-- Second search result. -/
def tavilyR2 : SearchResult :=
  ⟨("Acme news").toList, ("https://news.example/acme").toList,
   ("Acme shipped.").toList⟩

/-- Claim C3: the claim states the accumulation contract — all `n`
formatted blocks joined by `---`, and `"No results found."` for zero
results.  The code contradicts it: on a two-result response it returns
only the first formatted block (the `return` sits inside the loop), and
on a zero-result response it returns `None` rather than the sentinel
string. -/
theorem claim_C3_returns_first_result_only :
    research_company [tavilyR1, tavilyR2] = some (formatSearchResult tavilyR1)
      ∧ research_company [tavilyR1, tavilyR2]
          ≠ some (joinSep (("\n---\n").toList)
              [formatSearchResult tavilyR1, formatSearchResult tavilyR2])
      ∧ research_company [] = none := by
  refine ⟨?_, ?_, ?_⟩
  · decide
  · decide
  · decide

end InterviewPrep
